import Mathlib

/-!
Verification of the travel-chatbot backend core: entity slot state
(`entities.py`), entity extraction with a regex fallback (`extractor.py`),
dialogue orchestration (`message_handler.py`), the token-bucket rate limiter
(`api_client.py`) and the route ranking and multi-leg composition
(`Routes/GetRoutes.py`, `Routes/GetRoutesWithStops.py`).

External network calls (the transit search service, the LLM extraction
service) are modelled as explicit parameters: an environment function giving
the search result for a city pair and date, and an `Except` value giving the
extraction-client outcome.  Python dicts with a fixed key set become
structures; Python `datetime` values become a `PyDate` structure whose
`replace(day=...)` validation is modelled faithfully; exceptions that the
source can raise across the modelled boundary become `Except`.
-/

/-! ### TravelEntities (entities.py) -/

/-- Transport preference dict with the three fixed keys
`train`, `plane`, `bus` (source: `DEFAULT_PREFERED_TRANSPORT`). -/
structure TransportPref where
  train : Int
  plane : Int
  bus : Int
deriving DecidableEq, Repr

/-- The default preference: all kinds 0 (unselected). -/
def defaultPref : TransportPref := { train := 0, plane := 0, bus := 0 }

/-- Slot state of one dialogue (source: class `TravelEntities`). -/
structure TravelEntities where
  date : String
  start_city : String
  end_city : String
  mid_city : List String
  prefered_transport : TransportPref
deriving DecidableEq, Repr

/-- `TravelEntities()` constructed with no data. -/
def TravelEntities.emptyEnt : TravelEntities :=
  { date := "", start_city := "", end_city := "", mid_city := [],
    prefered_transport := defaultPref }

/-- `is_complete`: all three mandatory slots non-empty. -/
def TravelEntities.is_complete (e : TravelEntities) : Bool :=
  e.date != "" && e.start_city != "" && e.end_city != ""

/-- `get_missing_entities`. -/
def TravelEntities.get_missing_entities (e : TravelEntities) : List String :=
  (if e.date == "" then ["date"] else []) ++
  (if e.start_city == "" then ["start_city"] else []) ++
  (if e.end_city == "" then ["end_city"] else [])

/-- `get_route_description`: start, waypoints, end joined with arrows. -/
def TravelEntities.get_route_description (e : TravelEntities) : String :=
  String.intercalate " → "
    ((e.start_city :: (if e.mid_city ≠ [] then e.mid_city else [])) ++ [e.end_city])

/-- A partial update of the three transport keys: `new_entities["prefered_transport"]`
restricted to the keys `update` reads (it iterates `DEFAULT_PREFERED_TRANSPORT`
and copies a key only when present in the new dict). -/
structure TransportUpdate where
  train : Option Int
  plane : Option Int
  bus : Option Int
deriving DecidableEq, Repr

/-- The `new_entities` dict passed to `TravelEntities.update` (and the raw
dict returned by the extraction client): each key optionally present. -/
structure EntityUpdate where
  date : Option String
  start_city : Option String
  end_city : Option String
  mid_city : Option (List String)
  prefered_transport : Option TransportUpdate
deriving DecidableEq, Repr

/-- Python truthiness of `d.get(key)` for a string slot: the key must be
present and its value non-empty. -/
def truthyStr (o : Option String) : Bool :=
  match o with
  | none => false
  | some s => s != ""

/-- Python truthiness of `d.get(key)` for a list slot. -/
def truthyList (o : Option (List String)) : Bool :=
  match o with
  | none => false
  | some l => l != []

/-- The per-key overwrite loop of `update` on `prefered_transport`:
`for key in DEFAULT_PREFERED_TRANSPORT: if key in new_pref: self.prefered_transport[key] = new_pref[key]`. -/
def applyPrefUpdate (p : TransportPref) (u : TransportUpdate) : TransportPref :=
  { train := u.train.getD p.train,
    plane := u.plane.getD p.plane,
    bus := u.bus.getD p.bus }

/-- `TravelEntities.update` (entities.py lines 78-104).  The Python method
mutates the fields one after another; each branch touches a distinct field,
so the record built field-wise is the same final state.  The `mid_city`
branch builds `set(self.mid_city)`, adds the new cities and stores
`list(...)`: Python set iteration order is unspecified, so the list order is
fixed here canonically by `List.dedup` of the concatenation; every property
stated about it is order-insensitive (membership and duplicate-freedom). -/
def TravelEntities.update (e : TravelEntities) (u : EntityUpdate) : TravelEntities :=
  { date := if truthyStr u.date then u.date.getD "" else e.date,
    start_city := if truthyStr u.start_city then u.start_city.getD "" else e.start_city,
    end_city := if truthyStr u.end_city then u.end_city.getD "" else e.end_city,
    mid_city := if truthyList u.mid_city then (e.mid_city ++ u.mid_city.getD []).dedup
                else e.mid_city,
    prefered_transport :=
      match u.prefered_transport with
      | some tu => applyPrefUpdate e.prefered_transport tu
      | none => e.prefered_transport }

/-- A state whose waypoint list already holds a duplicate (such states are
reachable: the primary-extraction merge stores the raw extracted list as is). -/
def c1_ent : TravelEntities :=
  { date := "", start_city := "", end_city := "", mid_city := ["A", "A"],
    prefered_transport := defaultPref }

/-- An update dict supplying none of the keys. -/
def c1_upd : EntityUpdate :=
  { date := none, start_city := none, end_city := none, mid_city := none,
    prefered_transport := none }

/-- Claim C1, counterexample: on a state with a duplicated waypoint and an
update supplying no `mid_city`, the updated `mid_city` is the old list with
its duplicate intact, so it is not the deduplicated union of the existing and
new waypoint lists (a deduplicated list has no duplicates). -/
theorem C1_counterexample :
    (c1_ent.update c1_upd).mid_city = ["A", "A"] ∧
    ¬ (c1_ent.update c1_upd).mid_city.Nodup := by
  refine ⟨rfl, ?_⟩
  decide

/-- Claim C1 (amended): `update` replaces `date`, `start_city`, `end_city`
only when the dict supplies a non-empty value (so a non-empty field never
becomes empty); when the dict supplies a non-empty `mid_city` list the result
is the deduplicated union of the existing and new waypoint lists, and
otherwise `mid_city` is left exactly as it was (including any duplicates it
already had); `prefered_transport` is overwritten per key whenever the key is
present, 0 being a valid overwrite of a prior 1. -/
theorem C1_update_contract (e : TravelEntities) (u : EntityUpdate) :
    (truthyStr u.date = true → (e.update u).date = u.date.getD "") ∧
    (truthyStr u.date = false → (e.update u).date = e.date) ∧
    (e.date ≠ "" → (e.update u).date ≠ "") ∧
    (truthyStr u.start_city = true → (e.update u).start_city = u.start_city.getD "") ∧
    (truthyStr u.start_city = false → (e.update u).start_city = e.start_city) ∧
    (e.start_city ≠ "" → (e.update u).start_city ≠ "") ∧
    (truthyStr u.end_city = true → (e.update u).end_city = u.end_city.getD "") ∧
    (truthyStr u.end_city = false → (e.update u).end_city = e.end_city) ∧
    (e.end_city ≠ "" → (e.update u).end_city ≠ "") ∧
    (truthyList u.mid_city = true →
      (e.update u).mid_city.Nodup ∧
      ∀ c, c ∈ (e.update u).mid_city ↔ (c ∈ e.mid_city ∨ c ∈ u.mid_city.getD [])) ∧
    (truthyList u.mid_city = false → (e.update u).mid_city = e.mid_city) ∧
    (∀ tu, u.prefered_transport = some tu →
      (e.update u).prefered_transport = applyPrefUpdate e.prefered_transport tu) ∧
    (u.prefered_transport = none →
      (e.update u).prefered_transport = e.prefered_transport) := by
  refine ⟨?_, ?_, ?_, ?_, ?_, ?_, ?_, ?_, ?_, ?_, ?_, ?_, ?_⟩
  · intro h; simp [TravelEntities.update, h]
  · intro h; simp [TravelEntities.update, h]
  · intro hne
    by_cases h : truthyStr u.date
    · simp only [TravelEntities.update, h, if_pos]
      cases hu : u.date with
      | none => simp [truthyStr, hu] at h
      | some s =>
        simp only [hu, Option.getD_some]
        simp [truthyStr, hu] at h
        simpa using h
    · simp only [TravelEntities.update, h]
      simpa using hne
  · intro h; simp [TravelEntities.update, h]
  · intro h; simp [TravelEntities.update, h]
  · intro hne
    by_cases h : truthyStr u.start_city
    · simp only [TravelEntities.update, h, if_pos]
      cases hu : u.start_city with
      | none => simp [truthyStr, hu] at h
      | some s =>
        simp only [hu, Option.getD_some]
        simp [truthyStr, hu] at h
        simpa using h
    · simp only [TravelEntities.update, h]
      simpa using hne
  · intro h; simp [TravelEntities.update, h]
  · intro h; simp [TravelEntities.update, h]
  · intro hne
    by_cases h : truthyStr u.end_city
    · simp only [TravelEntities.update, h, if_pos]
      cases hu : u.end_city with
      | none => simp [truthyStr, hu] at h
      | some s =>
        simp only [hu, Option.getD_some]
        simp [truthyStr, hu] at h
        simpa using h
    · simp only [TravelEntities.update, h]
      simpa using hne
  · intro h
    constructor
    · simp [TravelEntities.update, h, List.nodup_dedup]
    · intro c
      simp [TravelEntities.update, h, List.mem_dedup]
  · intro h; simp [TravelEntities.update, h]
  · intro tu htu; simp [TravelEntities.update, htu]
  · intro h; simp [TravelEntities.update, h]

/-- A concrete state and update exercising the contract. -/
def c1w_ent : TravelEntities :=
  { date := "01.01.2025", start_city := "Москва", end_city := "",
    mid_city := ["Тверь"], prefered_transport := { train := 1, plane := 0, bus := 0 } }

/-- A concrete update: new date, new waypoint, explicit transport negation. -/
def c1w_upd : EntityUpdate :=
  { date := some "05.05.2025", start_city := some "", end_city := none,
    mid_city := some ["Казань", "Тверь"],
    prefered_transport := some { train := some 0, plane := none, bus := some 1 } }

/-- Witness for C1: the contract applied at a concrete state and update. -/
theorem C1_update_contract_witness :
    (c1w_ent.update c1w_upd).date = c1w_upd.date.getD "" ∧
    (c1w_ent.update c1w_upd).start_city = c1w_ent.start_city ∧
    ((c1w_ent.update c1w_upd).mid_city.Nodup ∧
      ∀ c, c ∈ (c1w_ent.update c1w_upd).mid_city ↔
        (c ∈ c1w_ent.mid_city ∨ c ∈ c1w_upd.mid_city.getD [])) ∧
    (c1w_ent.update c1w_upd).prefered_transport =
      applyPrefUpdate c1w_ent.prefered_transport
        { train := some 0, plane := none, bus := some 1 } :=
  ⟨(C1_update_contract c1w_ent c1w_upd).1 (by decide),
   (C1_update_contract c1w_ent c1w_upd).2.2.2.2.1 (by decide),
   (C1_update_contract c1w_ent c1w_upd).2.2.2.2.2.2.2.2.2.1 (by decide),
   (C1_update_contract c1w_ent c1w_upd).2.2.2.2.2.2.2.2.2.2.2.1 _ rfl⟩

/-! ### Route search results (Routes/GetRoutes.py, Routes/GetRoutesWithStops.py)

A raw segment from the external search endpoint.  Only the fields the
modelled code reads are kept: `segment.get("thread", {}).get("transport_type")`
(absent → `none`), `segment.get("duration", ...)` and
`segment.get("distance", ...)` (absent keys → `none`, the call-site default
applied where the source applies it). -/

/-- One route segment as read by the ranking code. -/
structure Segment where
  transport_type : Option String
  duration : Option Int
  distance : Option Int
deriving DecidableEq, Repr

/-- The JSON search answer: a dict that carries a `segments` key.  The
branches of the source that handle an answer without that key collapse to
the `Option` layer at each call site. -/
structure RoutesData where
  segments : List Segment
deriving DecidableEq, Repr

/-- Sort comparison `key=lambda x: x.get("duration", float("inf"))`:
a missing duration sorts after every present one. -/
def leDur (a b : Segment) : Bool :=
  match a.duration, b.duration with
  | some x, some y => decide (x ≤ y)
  | some _, none => true
  | none, some _ => false
  | none, none => true

theorem leDur_refl (a : Segment) : leDur a a = true := by
  unfold leDur
  cases a.duration <;> simp

theorem leDur_trans (a b c : Segment) :
    leDur a b = true → leDur b c = true → leDur a c = true := by
  unfold leDur
  cases a.duration <;> cases b.duration <;> cases c.duration <;> simp <;> omega

theorem leDur_total (a b : Segment) : (leDur a b || leDur b a) = true := by
  unfold leDur
  cases a.duration <;> cases b.duration <;> simp <;> omega

/-- Python dict lookup on a preference mapping modelled as an association
list with distinct keys. -/
def lookupPref (p : List (String × Int)) (k : String) : Option Int :=
  match p with
  | [] => none
  | (k2, v) :: rest => if k2 = k then some v else lookupPref rest k

/-- Membership-and-value test of the filter loop:
`transport_type in prefered_transport and prefered_transport[transport_type] == 1`.
A segment without a `transport_type` never passes (`None` is not a key). -/
def segSelected (p : List (String × Int)) (s : Segment) : Bool :=
  match s.transport_type with
  | some t => lookupPref p t == some 1
  | none => false

/-- `GetRoutes._filter_routes_by_prefered_transport` (GetRoutes.py 79-97):
keep exactly the segments whose transport kind is a key mapped to 1.
(The guard for data without a `segments` key is handled by the `Option`
layer at the call site.) -/
def filter_routes_by_prefered_transport (rd : RoutesData) (p : List (String × Int)) :
    RoutesData :=
  { segments := rd.segments.filter (fun s => segSelected p s) }

/-- `all(value == 0 for value in prefered_transport.values())`. -/
def allZero (p : List (String × Int)) : Bool :=
  p.all (fun kv => kv.2 == 0)

/-- The filtering decision in `GetRoutes.get_routes` (GetRoutes.py 70-72):
`if prefered_transport and not all(value == 0 ...)` — filter only when the
mapping is supplied, non-empty, and not all zero. -/
def apply_transport_filter (rd : RoutesData) (pref : Option (List (String × Int))) :
    RoutesData :=
  match pref with
  | none => rd
  | some p => if !p.isEmpty && !allZero p then filter_routes_by_prefered_transport rd p
              else rd

/-- Python slicing `l[:k]` for an `int` bound `k`, which may be negative
(`remaining_slots` can go negative when `num_routes < len(fastest_routes)`):
a negative bound keeps the first `len(l) + k` elements. -/
def pyTake {α : Type} (l : List α) (k : Int) : List α :=
  if 0 ≤ k then l.take k.toNat else l.take (l.length - (-k).toNat)

/-- The iteration order of the set literal `self.transport_types =
{"plane", "train", "bus"}` (GetRoutes.py 18).  Python set iteration order is
unspecified; it is fixed here in literal order, and no proved property
depends on this choice. -/
def transport_types_order : List String := ["plane", "train", "bus"]

/-- `sorted(routes_data["segments"], key=lambda x: x.get("duration", float("inf")))`
— Python sort is stable, as is `mergeSort`. -/
def sortedSegs (rd : RoutesData) : List Segment :=
  rd.segments.mergeSort leDur

/-- The `transport_groups` entry for kind `t`: the loop appends to each
group in sorted order, so each group is the duration-sorted sublist of the
segments of that kind. -/
def kindGroup (rd : RoutesData) (t : String) : List Segment :=
  (sortedSegs rd).filter (fun s => decide (s.transport_type = some t))

/-- The diversified picks of `GetRoutes._get_fastest_routes`: the head
(`routes[0]`) of each non-empty per-kind group, in set-iteration order. -/
def diversifiedPicks (rd : RoutesData) : List Segment :=
  transport_types_order.filterMap (fun t => (kindGroup rd t).head?)

/-- `GetRoutes._get_fastest_routes` (GetRoutes.py 99-128): per-kind fastest
picks, then remaining slots filled from the duration-sorted list with the
already-chosen segments skipped (`route not in fastest_routes`, dict
equality), everything truncated to `num_routes`. -/
def get_fastest_routes (rd : RoutesData) (num_routes : Nat) : List Segment :=
  (diversifiedPicks rd ++
    pyTake ((sortedSegs rd).filter (fun s => decide (s ∉ diversifiedPicks rd)))
      ((num_routes : Int) - ((diversifiedPicks rd).length : Int))).take num_routes

/-- The environment of the routes layer: the outcome of
`GetRoutes.get_routes(from_city, to_city, date)` with no preference filter —
`none` models every failure path of that method (station code not resolved,
request error, missing `segments` key), `some rd` a JSON answer carrying
`segments`. -/
def RouteEnv : Type := String → String → String → Option RoutesData

/-- `GetRoutesWithStops._find_best_routes` (GetRoutesWithStops.py 17-44):
`None` when the search fails or yields no segments, otherwise the first
`top_n = 3` of the duration-sorted segments. -/
def find_best_routes (env : RouteEnv) (start finish date : String) :
    Option (List Segment) :=
  match env start finish date with
  | none => none
  | some rd =>
    if rd.segments.isEmpty then none
    else some ((rd.segments.mergeSort leDur).take 3)

/-- One committed leg of a multi-leg answer: the dict
`{"from": ..., "to": ..., "routes": best_routes}` (GetRoutesWithStops.py 65-69).
`from` is a Lean keyword, hence `legFrom`/`legTo`. -/
structure Leg where
  legFrom : String
  legTo : String
  routes : List Segment
deriving DecidableEq, Repr

/-- The multi-leg answer dict (GetRoutesWithStops.py 74-78). -/
structure MultiLegResult where
  route : List Leg
  total_duration : Int
  total_distance : Int
deriving DecidableEq, Repr

/-- The loop of `find_multi_leg_route` over consecutive stop pairs.  The
Python loop accumulates the totals left to right; the recursion sums the
same numbers.  `if not best_routes: return None` rejects both a `None`
answer and an empty list. -/
def multiLegAux (env : RouteEnv) (date : String) :
    List String → Option (List Leg × Int × Int)
  | a :: b :: rest =>
    match find_best_routes env a b date with
    | none => none
    | some [] => none
    | some (s :: more) =>
      match multiLegAux env date (b :: rest) with
      | none => none
      | some (legs, dur, dist) =>
        some ({ legFrom := a, legTo := b, routes := s :: more } :: legs,
              s.duration.getD 0 + dur, s.distance.getD 0 + dist)
  | _ => some ([], 0, 0)

/-- `GetRoutesWithStops.find_multi_leg_route` (GetRoutesWithStops.py 46-78). -/
def find_multi_leg_route (env : RouteEnv) (stops : List String) (date : String) :
    Option MultiLegResult :=
  match multiLegAux env date stops with
  | none => none
  | some (legs, dur, dist) =>
    some { route := legs, total_duration := dur, total_distance := dist }

/-- The consecutive pairs `(stops[i], stops[i+1])` visited by the loop. -/
def legPairs : List String → List (String × String)
  | a :: b :: rest => (a, b) :: legPairs (b :: rest)
  | _ => []

/-- The committed segment of a leg: `best_routes[0]`. -/
def legHead (l : Leg) : Segment :=
  l.routes.headD { transport_type := none, duration := none, distance := none }

/-- A leg search that yields zero segments: the environment answers `none`
or with an empty segment list. -/
def legSearchEmpty (env : RouteEnv) (date : String) (p : String × String) : Prop :=
  match env p.1 p.2 date with
  | none => True
  | some rd => rd.segments = []

/-- Claim C5: when the preference mapping contains a kind selected with 1,
every returned segment has a selected transport kind (everything else is
dropped); a missing mapping or an all-zero mapping leaves the segment list
untouched. -/
theorem C5_preference_filter (segs : List Segment) (pref : List (String × Int)) :
    ((∃ kv ∈ pref, kv.2 = 1) →
      ∀ s ∈ (apply_transport_filter { segments := segs } (some pref)).segments,
        ∃ t, s.transport_type = some t ∧ lookupPref pref t = some 1) ∧
    (apply_transport_filter { segments := segs } none = { segments := segs }) ∧
    (allZero pref = true →
      apply_transport_filter { segments := segs } (some pref) = { segments := segs }) := by
  refine ⟨?_, rfl, ?_⟩
  · rintro ⟨kv, hkv, hone⟩ s hs
    have hne : pref ≠ [] := by
      intro h; subst h; simp at hkv
    have hnz : allZero pref = false := by
      apply List.all_eq_false.mpr
      exact ⟨kv, hkv, by simp [hone]⟩
    have hcond : (!(pref.isEmpty) && !allZero pref) = true := by
      simp [List.isEmpty_iff, hne, hnz]
    simp only [apply_transport_filter, hcond, if_true,
      filter_routes_by_prefered_transport, List.mem_filter] at hs
    obtain ⟨hmem, hsel⟩ := hs
    unfold segSelected at hsel
    cases ht : s.transport_type with
    | none => rw [ht] at hsel; exact absurd hsel (by simp)
    | some t =>
      rw [ht] at hsel
      refine ⟨t, rfl, ?_⟩
      simpa using hsel
  · intro hz
    simp [apply_transport_filter, hz]

/-- A train segment and a plane segment for the witness. -/
def segTrainW : Segment := { transport_type := some "train", duration := some 100, distance := some 5 }

/-- A plane segment, faster, but not of a selected kind. -/
def segPlaneW : Segment := { transport_type := some "plane", duration := some 50, distance := some 7 }

/-- The preference mapping of the spec example. -/
def prefTrainOnly : List (String × Int) := [("train", 1), ("plane", 0), ("bus", 0)]

/-- Witness for C5: with preference train:1, plane:0, bus:0 on mixed input,
the surviving train segment is of a selected kind. -/
theorem C5_preference_filter_witness :
    ∃ t, segTrainW.transport_type = some t ∧ lookupPref prefTrainOnly t = some 1 :=
  (C5_preference_filter [segPlaneW, segTrainW] prefTrainOnly).1
    ⟨("train", 1), by decide, rfl⟩ segTrainW (by decide)

/-- Removing the members of `remove` from a duplicate-free list drops at
most `remove.length` elements. -/
theorem length_filter_not_mem {α : Type} [DecidableEq α] (remove : List α) :
    ∀ l : List α, l.Nodup →
      l.length - remove.length ≤ (l.filter (fun s => decide (s ∉ remove))).length := by
  induction remove with
  | nil =>
    intro l _
    simp
  | cons r rs ih =>
    intro l hl
    have hsplit : l.filter (fun s => decide (s ∉ r :: rs)) =
        (l.filter (fun s => decide (s ≠ r))).filter (fun s => decide (s ∉ rs)) := by
      rw [List.filter_filter]
      apply List.filter_congr
      intro a _
      by_cases h1 : a = r <;> by_cases h2 : a ∈ rs <;> simp [h1, h2]
    have hkey : ∀ m : List α, m.Nodup →
        (m.filter (fun s => decide (s = r))).length ≤ 1 := by
      intro m
      induction m with
      | nil => intro _; simp
      | cons a t iht =>
        intro h
        rcases List.nodup_cons.mp h with ⟨ha, ht⟩
        by_cases har : a = r
        · subst har
          have hnil : t.filter (fun s => decide (s = a)) = [] := by
            rw [List.filter_eq_nil_iff]
            intro s hs
            simp only [decide_eq_true_eq]
            intro hsa
            exact ha (hsa ▸ hs)
          simp [List.filter_cons, hnil]
        · simp only [List.filter_cons, decide_eq_true_eq, har, if_false]
          exact iht ht
    have hsum := List.length_eq_countP_add_countP (fun s => decide (s = r)) l
    have hcount : List.countP (fun s => decide (s = r)) l ≤ 1 := by
      rw [List.countP_eq_length_filter]
      exact hkey l hl
    have hne_eq : List.countP (fun a => decide ¬(decide (a = r) = true)) l =
        (l.filter (fun s => decide (s ≠ r))).length := by
      rw [List.countP_eq_length_filter]
      congr 1
      apply List.filter_congr
      intro a _
      by_cases h1 : a = r <;> simp [h1]
    have h1 : l.length - 1 ≤ (l.filter (fun s => decide (s ≠ r))).length := by
      omega
    have hnd : (l.filter (fun s => decide (s ≠ r))).Nodup := hl.filter _
    have h2 := ih (l.filter (fun s => decide (s ≠ r))) hnd
    rw [hsplit]
    simp only [List.length_cons]
    omega

/-- `sorted(... key=duration-with-infinity)` is pairwise ordered. -/
theorem sortedSegs_pairwise (rd : RoutesData) :
    List.Pairwise (fun a b => leDur a b = true) (sortedSegs rd) :=
  List.sorted_mergeSort leDur_trans leDur_total rd.segments

/-- A non-empty kind in the input gives a non-empty group. -/
theorem kindGroup_ne_nil {rd : RoutesData} {t : String}
    (h : ∃ s ∈ rd.segments, s.transport_type = some t) :
    kindGroup rd t ≠ [] := by
  obtain ⟨s, hs, ht⟩ := h
  intro hnil
  have hmem : s ∈ kindGroup rd t := by
    simp [kindGroup, List.mem_filter, sortedSegs, List.mem_mergeSort, hs, ht]
  rw [hnil] at hmem
  simp at hmem

/-- The head of a kind group belongs to the input, has that kind, and is a
minimum-duration segment among the segments of that kind. -/
theorem kindGroup_head_min {rd : RoutesData} {t : String} {p : Segment}
    {tl : List Segment} (hg : kindGroup rd t = p :: tl) :
    p ∈ rd.segments ∧ p.transport_type = some t ∧
    ∀ s ∈ rd.segments, s.transport_type = some t → leDur p s = true := by
  have hpair : List.Pairwise (fun a b => leDur a b = true) (kindGroup rd t) :=
    List.Pairwise.sublist (List.filter_sublist _) (sortedSegs_pairwise rd)
  have hpmem : p ∈ kindGroup rd t := by
    rw [hg]; exact List.mem_cons_self _ _
  have hpdat := List.mem_filter.mp hpmem
  refine ⟨List.mem_mergeSort.mp hpdat.1, by simpa using hpdat.2, ?_⟩
  intro s hs hst
  have hsg : s ∈ kindGroup rd t := by
    simp [kindGroup, List.mem_filter, sortedSegs, List.mem_mergeSort, hs, hst]
  rw [hg] at hsg hpair
  rcases List.mem_cons.mp hsg with rfl | hstl
  · exact leDur_refl s
  · exact List.rel_of_pairwise_cons hpair hstl

/-- Claim C4: on an input with segments of all three transport kinds, all
durations present and pairwise distinct, a target `N ≥ 3` within the input
size, the ranked output has exactly `N` segments, contains at least one
segment of each of the three kinds, consists of the per-kind fastest picks
followed by fill segments in ascending duration order, and each pick is a
minimum-duration segment of its kind. -/
theorem C4_diversified_ranking (rd : RoutesData) (num_routes : Nat)
    (hnum : 3 ≤ num_routes)
    (hkinds : ∀ t ∈ transport_types_order, ∃ s ∈ rd.segments, s.transport_type = some t)
    (hdistinct : (rd.segments.map Segment.duration).Nodup)
    (hsome : ∀ s ∈ rd.segments, s.duration ≠ none)
    (hlen : num_routes ≤ rd.segments.length) :
    (get_fastest_routes rd num_routes).length = num_routes ∧
    (∀ t ∈ transport_types_order,
      ∃ s ∈ get_fastest_routes rd num_routes, s.transport_type = some t) ∧
    (∃ fill, get_fastest_routes rd num_routes = diversifiedPicks rd ++ fill ∧
      List.Pairwise (fun a b => leDur a b = true) fill) ∧
    (∀ t ∈ transport_types_order, ∃ p ∈ diversifiedPicks rd,
      p.transport_type = some t ∧
      ∀ s ∈ rd.segments, s.transport_type = some t → leDur p s = true) := by
  have hnodup : rd.segments.Nodup := List.Nodup.of_map _ hdistinct
  have hsortnd : (sortedSegs rd).Nodup :=
    (List.mergeSort_perm rd.segments leDur).nodup_iff.mpr hnodup
  have hslen : (sortedSegs rd).length = rd.segments.length :=
    List.length_mergeSort rd.segments
  obtain ⟨p1, t1, hg1⟩ : ∃ p tl, kindGroup rd "plane" = p :: tl := by
    cases h : kindGroup rd "plane" with
    | nil => exact absurd h (kindGroup_ne_nil (hkinds "plane" (by simp [transport_types_order])))
    | cons p tl => exact ⟨p, tl, rfl⟩
  obtain ⟨p2, t2, hg2⟩ : ∃ p tl, kindGroup rd "train" = p :: tl := by
    cases h : kindGroup rd "train" with
    | nil => exact absurd h (kindGroup_ne_nil (hkinds "train" (by simp [transport_types_order])))
    | cons p tl => exact ⟨p, tl, rfl⟩
  obtain ⟨p3, t3, hg3⟩ : ∃ p tl, kindGroup rd "bus" = p :: tl := by
    cases h : kindGroup rd "bus" with
    | nil => exact absurd h (kindGroup_ne_nil (hkinds "bus" (by simp [transport_types_order])))
    | cons p tl => exact ⟨p, tl, rfl⟩
  have hpicks : diversifiedPicks rd = [p1, p2, p3] := by
    simp [diversifiedPicks, transport_types_order, List.filterMap_cons, hg1, hg2, hg3]
  have hplen : (diversifiedPicks rd).length = 3 := by rw [hpicks]; rfl
  have hfiltered := length_filter_not_mem (diversifiedPicks rd) (sortedSegs rd) hsortnd
  have hfilterlen : num_routes - 3 ≤
      ((sortedSegs rd).filter (fun s => decide (s ∉ diversifiedPicks rd))).length := by
    omega
  have hout : get_fastest_routes rd num_routes =
      diversifiedPicks rd ++
        ((sortedSegs rd).filter (fun s => decide (s ∉ diversifiedPicks rd))).take
          (num_routes - 3) := by
    unfold get_fastest_routes
    have hk : ((num_routes : Int) - ((diversifiedPicks rd).length : Int)) =
        ((num_routes - 3 : Nat) : Int) := by
      rw [hplen]; omega
    rw [hk]
    have hpy : pyTake ((sortedSegs rd).filter (fun s => decide (s ∉ diversifiedPicks rd)))
        ((num_routes - 3 : Nat) : Int) =
        ((sortedSegs rd).filter (fun s => decide (s ∉ diversifiedPicks rd))).take
          (num_routes - 3) := by
      unfold pyTake
      rw [if_pos (by positivity)]
      simp
    rw [hpy, List.take_append_eq_append_take,
      List.take_of_length_le (by omega : (diversifiedPicks rd).length ≤ num_routes),
      hplen, List.take_take]
    congr 1
    congr 1
    omega
  have hfill_len : (((sortedSegs rd).filter
      (fun s => decide (s ∉ diversifiedPicks rd))).take (num_routes - 3)).length =
      num_routes - 3 := by
    rw [List.length_take]
    exact min_eq_left hfilterlen
  have hmin1 := kindGroup_head_min hg1
  have hmin2 := kindGroup_head_min hg2
  have hmin3 := kindGroup_head_min hg3
  refine ⟨?_, ?_, ?_, ?_⟩
  · rw [hout, List.length_append, hplen, hfill_len]
    omega
  · intro t ht
    simp only [transport_types_order, List.mem_cons, List.not_mem_nil, or_false] at ht
    rcases ht with rfl | rfl | rfl
    · exact ⟨p1, by rw [hout, hpicks]; simp, hmin1.2.1⟩
    · exact ⟨p2, by rw [hout, hpicks]; simp, hmin2.2.1⟩
    · exact ⟨p3, by rw [hout, hpicks]; simp, hmin3.2.1⟩
  · refine ⟨_, hout, ?_⟩
    exact List.Pairwise.sublist
      (List.Sublist.trans (List.take_sublist _ _) (List.filter_sublist _))
      (sortedSegs_pairwise rd)
  · intro t ht
    simp only [transport_types_order, List.mem_cons, List.not_mem_nil, or_false] at ht
    rcases ht with rfl | rfl | rfl
    · exact ⟨p1, by rw [hpicks]; simp, hmin1.2.1, hmin1.2.2⟩
    · exact ⟨p2, by rw [hpicks]; simp, hmin2.2.1, hmin2.2.2⟩
    · exact ⟨p3, by rw [hpicks]; simp, hmin3.2.1, hmin3.2.2⟩

/-- A concrete mixed-kind input for the ranking witness. -/
def c4_rd : RoutesData :=
  { segments :=
    [ { transport_type := some "train", duration := some 100, distance := some 5 },
      { transport_type := some "plane", duration := some 50, distance := some 7 },
      { transport_type := some "bus", duration := some 200, distance := some 3 },
      { transport_type := some "train", duration := some 150, distance := some 9 } ] }

/-- Witness for C4: the ranking theorem applied to a concrete four-segment
input with all three kinds, at target count 4. -/
theorem C4_diversified_ranking_witness :
    (get_fastest_routes c4_rd 4).length = 4 ∧
    ∀ t ∈ transport_types_order, ∃ s ∈ get_fastest_routes c4_rd 4,
      s.transport_type = some t :=
  ⟨(C4_diversified_ranking c4_rd 4 (by decide) (by decide) (by decide) (by decide)
      (by decide)).1,
   (C4_diversified_ranking c4_rd 4 (by decide) (by decide) (by decide) (by decide)
      (by decide)).2.1⟩

/-- The loop invariant of `find_multi_leg_route`: any empty leg search kills
the whole composition, and when every leg search yields segments the result
is the ordered leg list with totals summing the committed (minimum-duration)
segment of each leg. -/
theorem multiLegAux_spec (env : RouteEnv) (date : String) (stops : List String) :
    ((∃ p ∈ legPairs stops, legSearchEmpty env date p) →
      multiLegAux env date stops = none) ∧
    ((∀ p ∈ legPairs stops, ¬ legSearchEmpty env date p) →
      ∃ legs dur dist, multiLegAux env date stops = some (legs, dur, dist) ∧
        legs.map (fun l => (l.legFrom, l.legTo)) = legPairs stops ∧
        dur = (legs.map (fun l => (legHead l).duration.getD 0)).sum ∧
        dist = (legs.map (fun l => (legHead l).distance.getD 0)).sum ∧
        ∀ l ∈ legs, ∃ rd, env l.legFrom l.legTo date = some rd ∧
          legHead l ∈ rd.segments ∧ rd.segments ≠ [] ∧
          ∀ s ∈ rd.segments, leDur (legHead l) s = true) := by
  induction stops with
  | nil =>
    constructor
    · rintro ⟨p, hp, -⟩
      simp [legPairs] at hp
    · intro _
      exact ⟨[], 0, 0, rfl, rfl, rfl, rfl, by simp⟩
  | cons a tail ih =>
    cases tail with
    | nil =>
      constructor
      · rintro ⟨p, hp, -⟩
        simp [legPairs] at hp
      · intro _
        exact ⟨[], 0, 0, rfl, rfl, rfl, rfl, by simp⟩
    | cons b rest =>
      constructor
      · rintro ⟨p, hp, hempty⟩
        rcases List.mem_cons.mp hp with rfl | htail
        · have hfb : find_best_routes env a b date = none := by
            unfold legSearchEmpty at hempty
            unfold find_best_routes
            cases henv : env a b date with
            | none => rfl
            | some rd =>
              rw [henv] at hempty
              simp [List.isEmpty_iff, hempty]
          simp [multiLegAux, hfb]
        · have htl := ih.1 ⟨p, htail, hempty⟩
          cases hfb : find_best_routes env a b date with
          | none => simp [multiLegAux, hfb]
          | some br =>
            cases br with
            | nil => simp [multiLegAux, hfb]
            | cons s more => simp [multiLegAux, hfb, htl]
      · intro hall
        have hab := hall (a, b) (List.mem_cons_self _ _)
        unfold legSearchEmpty at hab
        cases henv : env a b date with
        | none => rw [henv] at hab; exact absurd trivial hab
        | some rd =>
          rw [henv] at hab
          have hne : rd.segments ≠ [] := hab
          have hfb : find_best_routes env a b date =
              some ((rd.segments.mergeSort leDur).take 3) := by
            unfold find_best_routes
            rw [henv]
            simp [List.isEmpty_iff, hne]
          have hsortne : rd.segments.mergeSort leDur ≠ [] := by
            intro h
            have := @List.length_mergeSort _ leDur rd.segments
            rw [h] at this
            exact hne (List.length_eq_zero.mp this.symm)
          cases hsorted : rd.segments.mergeSort leDur with
          | nil => exact absurd hsorted hsortne
          | cons s stail =>
            have hpair := @List.sorted_mergeSort _ leDur leDur_trans leDur_total rd.segments
            rw [hsorted] at hpair
            obtain ⟨legs, dur, dist, haux, hmap, hdur, hdist, hlegs⟩ :=
              ih.2 (fun p hp => hall p (List.mem_cons_of_mem _ hp))
            have htake : (rd.segments.mergeSort leDur).take 3 = s :: stail.take 2 := by
              rw [hsorted]; rfl
            refine ⟨{ legFrom := a, legTo := b, routes := s :: stail.take 2 } :: legs,
              s.duration.getD 0 + dur, s.distance.getD 0 + dist, ?_, ?_, ?_, ?_, ?_⟩
            · simp only [multiLegAux, hfb, htake, haux]
            · simp [legPairs, hmap]
            · simp [legHead, hdur]
            · simp [legHead, hdist]
            · intro l hl
              rcases List.mem_cons.mp hl with rfl | hltail
              · refine ⟨rd, henv, ?_, hne, ?_⟩
                · have : s ∈ rd.segments.mergeSort leDur := by
                    rw [hsorted]; exact List.mem_cons_self _ _
                  simpa [legHead] using List.mem_mergeSort.mp this
                · intro x hx
                  have hxs : x ∈ rd.segments.mergeSort leDur := List.mem_mergeSort.mpr hx
                  rw [hsorted] at hxs
                  rcases List.mem_cons.mp hxs with rfl | hxtail
                  · simpa [legHead] using leDur_refl x
                  · simpa [legHead] using List.rel_of_pairwise_cons hpair hxtail
              · exact hlegs l hltail

/-- Claim C3: for an ordered waypoint list of length at least 2, multi-leg
composition returns `None` whenever some consecutive leg search yields zero
segments (no partial itinerary), and when every leg yields at least one
segment it returns the ordered list of legs, with total duration and total
distance each the sum over legs of that field of the committed leg segment —
a minimum-duration segment of that leg's search result. -/
theorem C3_multi_leg_route (env : RouteEnv) (stops : List String) (date : String)
    (hlen : 2 ≤ stops.length) :
    ((∃ p ∈ legPairs stops, legSearchEmpty env date p) →
      find_multi_leg_route env stops date = none) ∧
    ((∀ p ∈ legPairs stops, ¬ legSearchEmpty env date p) →
      ∃ r, find_multi_leg_route env stops date = some r ∧
        r.route.map (fun l => (l.legFrom, l.legTo)) = legPairs stops ∧
        r.total_duration = (r.route.map (fun l => (legHead l).duration.getD 0)).sum ∧
        r.total_distance = (r.route.map (fun l => (legHead l).distance.getD 0)).sum ∧
        ∀ l ∈ r.route, ∃ rd, env l.legFrom l.legTo date = some rd ∧
          legHead l ∈ rd.segments ∧ rd.segments ≠ [] ∧
          ∀ s ∈ rd.segments, leDur (legHead l) s = true) := by
  constructor
  · intro h
    have := (multiLegAux_spec env date stops).1 h
    simp [find_multi_leg_route, this]
  · intro h
    obtain ⟨legs, dur, dist, haux, hmap, hdur, hdist, hlegs⟩ :=
      (multiLegAux_spec env date stops).2 h
    exact ⟨{ route := legs, total_duration := dur, total_distance := dist },
      by simp [find_multi_leg_route, haux], hmap, hdur, hdist, hlegs⟩

/-- A two-leg environment for the multi-leg witness. -/
def c3_env : RouteEnv := fun a b _ =>
  if a = "Москва" ∧ b = "Тверь" then
    some { segments :=
      [ { transport_type := some "train", duration := some 240, distance := some 160 },
        { transport_type := some "bus", duration := some 180, distance := some 170 } ] }
  else if a = "Тверь" ∧ b = "Санкт-Петербург" then
    some { segments :=
      [ { transport_type := some "train", duration := some 300, distance := some 500 } ] }
  else none

/-- The stop list of the witness. -/
def c3_stops : List String := ["Москва", "Тверь", "Санкт-Петербург"]

/-- Witness for C3: the composition theorem applied to a concrete two-leg
itinerary in which every leg search succeeds. -/
theorem C3_multi_leg_route_witness :
    ∃ r, find_multi_leg_route c3_env c3_stops "2025-03-15" = some r ∧
      r.route.map (fun l => (l.legFrom, l.legTo)) = legPairs c3_stops ∧
      r.total_duration = (r.route.map (fun l => (legHead l).duration.getD 0)).sum ∧
      r.total_distance = (r.route.map (fun l => (legHead l).distance.getD 0)).sum ∧
      ∀ l ∈ r.route, ∃ rd, c3_env l.legFrom l.legTo "2025-03-15" = some rd ∧
        legHead l ∈ rd.segments ∧ rd.segments ≠ [] ∧
        ∀ s ∈ rd.segments, leDur (legHead l) s = true :=
  (C3_multi_leg_route c3_env c3_stops "2025-03-15" (by decide)).2 (by
    intro p hp
    simp only [c3_stops, legPairs, List.mem_cons, List.not_mem_nil, or_false] at hp
    rcases hp with rfl | rfl <;> simp [legSearchEmpty, c3_env])

/-! ### Python datetime fragment

Only what the modelled code touches: the current date, `replace(day=...)`
with its range validation (it raises `ValueError` for a day outside the
month), and the `strftime` formats used. -/

/-- Zero-padded two-digit decimal (`%d`, `%m`, `:02d`). -/
def pad2 (n : Nat) : String :=
  if n < 10 then "0" ++ toString n else toString n

/-- Zero-padded four-digit decimal (`%Y`). -/
def pad4 (n : Nat) : String :=
  if n < 10 then "000" ++ toString n
  else if n < 100 then "00" ++ toString n
  else if n < 1000 then "0" ++ toString n
  else toString n

/-- A Gregorian calendar date as held by `datetime`. -/
structure PyDate where
  year : Nat
  month : Nat
  day : Nat
deriving DecidableEq, Repr

/-- Gregorian leap-year rule. -/
def isLeapYear (y : Nat) : Bool :=
  (y % 4 == 0 && y % 100 != 0) || y % 400 == 0

/-- Days in a month of a given year. -/
def daysInMonth (y m : Nat) : Nat :=
  if m == 2 then (if isLeapYear y then 29 else 28)
  else if m == 4 || m == 6 || m == 9 || m == 11 then 30
  else 31

/-- `datetime.replace(day=nd)`: validates the new day against the month,
raising `ValueError` (here `none`) when it is out of range. -/
def PyDate.replaceDay (d : PyDate) (nd : Nat) : Option PyDate :=
  if 1 ≤ nd && nd ≤ daysInMonth d.year d.month then some { d with day := nd }
  else none

/-- `strftime("%d.%m.%Y")`. -/
def PyDate.fmtDots (d : PyDate) : String :=
  pad2 d.day ++ "." ++ pad2 d.month ++ "." ++ pad4 d.year

/-- `strftime("%Y-%m-%d")`. -/
def PyDate.fmtIso (d : PyDate) : String :=
  pad4 d.year ++ "-" ++ pad2 d.month ++ "-" ++ pad2 d.day

/-! ### Message handler (message_handler.py, schemas/responces.py) -/

/-- `TransportType` from the response schema. -/
inductive TransportType where
  | bus
  | train
  | plane
  | ship
  | walk
deriving DecidableEq, Repr

/-- The name of a transport type as it appears in the ticket URL f-string. -/
def TransportType.nameStr : TransportType → String
  | .bus => "bus"
  | .train => "train"
  | .plane => "plane"
  | .ship => "ship"
  | .walk => "walk"

/-- `ScheduleObject` from the response schema. -/
structure ScheduleObject where
  type : TransportType
  time_start_utc : Int
  time_end_utc : Int
  place_start : String
  place_finish : String
  ticket_url : String
deriving DecidableEq, Repr

/-- A turn result: `MessageResponse` (clarification text) or
`ScheduleResponse` (list of schedule objects). -/
inductive HandlerResponse where
  | message (text : String)
  | schedule (objects : List ScheduleObject)
deriving DecidableEq, Repr

/-- Does the turn end in a `MessageResponse`? -/
def HandlerResponse.isMessage : HandlerResponse → Bool
  | .message _ => true
  | .schedule _ => false

/-- The ticket URL f-string
`http://example.com/ticket/{transport_type}/{start}-{end}`.  (How the
str-mixin enum renders inside an f-string differs across Python versions;
the plain member name is used here and no stated property depends on it.) -/
def ticketUrl (t : TransportType) (sc ec : String) : String :=
  "http://example.com/ticket/" ++ t.nameStr ++ "/" ++ sc ++ "-" ++ ec

/-- The date conversion at the top of `_generate_schedule_response`
(message_handler.py 209-215): split `dd.mm.yyyy` on dots and rebuild as
`yyyy-mm-dd`; on `IndexError` (fewer than three parts) substitute the
current date in ISO form. -/
def dateToApi (now : PyDate) (date : String) : String :=
  match date.splitOn "." with
  | d :: m :: y :: _ => y ++ "-" ++ m ++ "-" ++ d
  | _ => now.fmtIso

/-- The loop over `result["route"]` (message_handler.py 239-257): leg `i`
starts at `now + i*7200`, lasts `segment.get("duration", 3600)` — the leg
dict built by `find_multi_leg_route` carries no `duration` key, so the
default 3600 always applies — and alternates bus/train by leg parity. -/
def buildLegObjects (ts : Int) (ent : TravelEntities) :
    Nat → List Leg → List ScheduleObject
  | _, [] => []
  | i, leg :: rest =>
    let start_time := ts + (i : Int) * 7200
    let ttype := if i % 2 == 0 then TransportType.bus else TransportType.train
    { type := ttype,
      place_start := leg.legFrom,
      place_finish := leg.legTo,
      time_start_utc := start_time,
      time_end_utc := start_time + 3600,
      ticket_url := ticketUrl ttype ent.start_city ent.end_city } ::
      buildLegObjects ts ent (i + 1) rest

/-- The direct-route fallback object (message_handler.py 263-275 and
282-294): a single bus object with a fictive one-hour duration. -/
def directObj (ts : Int) (ent : TravelEntities) : ScheduleObject :=
  { type := TransportType.bus,
    place_start := ent.start_city,
    place_finish := ent.end_city,
    time_start_utc := ts,
    time_end_utc := ts + 3600,
    ticket_url := ticketUrl TransportType.bus ent.start_city ent.end_city }

/-- The two stub objects created when no route was obtained at all
(message_handler.py 300-325): a bus at `now` and a train thirty minutes
later. -/
def stubObjects (ts : Int) (ent : TravelEntities) : List ScheduleObject :=
  [ { type := TransportType.bus,
      place_start := ent.start_city,
      place_finish := ent.end_city,
      time_start_utc := ts,
      time_end_utc := ts + 3600,
      ticket_url := ticketUrl TransportType.bus ent.start_city ent.end_city },
    { type := TransportType.train,
      place_start := ent.start_city,
      place_finish := ent.end_city,
      time_start_utc := ts + 1800,
      time_end_utc := ts + 5400,
      ticket_url := ticketUrl TransportType.train ent.start_city ent.end_city } ]

/-- The stop list built in `_generate_schedule_response`
(message_handler.py 226-231). -/
def stopsOf (ent : TravelEntities) : List String :=
  if ent.mid_city ≠ [] then ent.start_city :: (ent.mid_city ++ [ent.end_city])
  else [ent.start_city, ent.end_city]

/-- `MessageHandler._generate_schedule_response` (message_handler.py
197-327), with the route layer reached through `env` and the current
time/date passed explicitly.  The multi-leg result and the direct search
answer are Python dicts with fixed keys, hence always truthy when not
`None`; every network failure path of the route layer is `env` answering
`none`.  When no schedule object was produced, the stub pair is returned. -/
def generate_schedule_response (env : RouteEnv) (now : PyDate) (ts : Int)
    (ent : TravelEntities) : List ScheduleObject :=
  let api_date := dateToApi now ent.date
  let fromRoutes : List ScheduleObject :=
    match find_multi_leg_route env (stopsOf ent) api_date with
    | some r => buildLegObjects ts ent 0 r.route
    | none =>
      match env ent.start_city ent.end_city api_date with
      | some _ => [directObj ts ent]
      | none => []
  if fromRoutes.isEmpty then stubObjects ts ent else fromRoutes

/-- `MessageHandler._generate_clarification_message`
(message_handler.py 140-195). -/
def generate_clarification_message (e : TravelEntities) : String :=
  let missing := e.get_missing_entities
  if missing.isEmpty then
    "Отлично! Я подобрал для вас маршрут: " ++ e.get_route_description ++
      " на " ++ e.date ++ ". Вот доступные варианты транспорта:"
  else if missing.length == 3 then
    "Добрый день! Чтобы подобрать для вас оптимальный маршрут, мне нужна информация о поездке. Пожалуйста, укажите дату поездки, город отправления и город прибытия."
  else
    let message_parts :=
      (if missing.contains "date" then ["дату поездки"] else []) ++
      (if missing.contains "start_city" then ["город отправления"] else []) ++
      (if missing.contains "end_city" then ["город прибытия"] else [])
    let base := "Пожалуйста, укажите " ++ String.intercalate ", " message_parts ++ "."
    let known_parts :=
      (if e.date != "" then ["дата: " ++ e.date] else []) ++
      (if e.start_city != "" then ["откуда: " ++ e.start_city] else []) ++
      (if e.end_city != "" then ["куда: " ++ e.end_city] else []) ++
      (if e.mid_city != [] then ["через: " ++ String.intercalate ", " e.mid_city] else [])
    if known_parts.isEmpty then base
    else base ++ "\n\nУже указано: " ++ String.intercalate "; " known_parts ++ "."

/-- The decision step of `MessageHandler.process_message`
(message_handler.py 83-89) after entity extraction: a schedule response
when the entity state is complete, otherwise a clarification message. -/
def processWithEntities (env : RouteEnv) (now : PyDate) (ts : Int)
    (ent : TravelEntities) : HandlerResponse :=
  if ent.is_complete then .schedule (generate_schedule_response env now ts ent)
  else .message (generate_clarification_message ent)

/-- A complete entity state with waypoints A → B → C. -/
def c2_ent : TravelEntities :=
  { date := "01.05.2025", start_city := "A", end_city := "C", mid_city := ["B"],
    prefered_transport := defaultPref }

/-- An environment in which every search path returns nothing. -/
def c2_env : RouteEnv := fun _ _ _ => none

/-- The current date used in the handler examples. -/
def c2_now : PyDate := { year := 2025, month := 4, day := 30 }

/-- Claim C2, counterexample: with complete entities A → B → C and every
search path returning nothing (so composition yields no itinerary), the turn
result is a `ScheduleResponse` carrying two fabricated stub objects — not a
clarification/refine-query message. -/
theorem C2_counterexample :
    c2_ent.is_complete = true ∧
    (processWithEntities c2_env c2_now 1000 c2_ent).isMessage = false ∧
    processWithEntities c2_env c2_now 1000 c2_ent =
      HandlerResponse.schedule (stubObjects 1000 c2_ent) := by
  refine ⟨rfl, rfl, rfl⟩

/-- Claim C2 (amended): for every complete entity state, when route
composition and the direct-route fallback both yield nothing, the handler
still returns a `ScheduleResponse` — it fabricates a stub bus and a stub
train object between the start and end city — and never a refine-query
message; a clarification `MessageResponse` arises only from an incomplete
entity state. -/
theorem C2_stub_schedule (env : RouteEnv) (now : PyDate) (ts : Int)
    (ent : TravelEntities) (hc : ent.is_complete = true)
    (hnone : ∀ a b d, env a b d = none) :
    processWithEntities env now ts ent =
      HandlerResponse.schedule (stubObjects ts ent) ∧
    (processWithEntities env now ts ent).isMessage = false := by
  have hstops : ∃ a b rest, stopsOf ent = a :: b :: rest := by
    unfold stopsOf
    by_cases h : ent.mid_city = []
    · exact ⟨ent.start_city, ent.end_city, [], by simp [h]⟩
    · cases hm : ent.mid_city with
      | nil => exact absurd hm h
      | cons m ms =>
        exact ⟨ent.start_city, m, ms ++ [ent.end_city], by simp [hm]⟩
  have hml : find_multi_leg_route env (stopsOf ent) (dateToApi now ent.date) = none := by
    obtain ⟨a, b, rest, hst⟩ := hstops
    rw [hst]
    simp [find_multi_leg_route, multiLegAux, find_best_routes, hnone]
  have h1 : processWithEntities env now ts ent =
      HandlerResponse.schedule (stubObjects ts ent) := by
    simp only [processWithEntities, hc, if_true]
    simp [generate_schedule_response, hml, hnone]
  exact ⟨h1, by rw [h1]; rfl⟩

/-- Witness for C2: the amended theorem applied to the concrete complete
state and the all-empty environment. -/
theorem C2_stub_schedule_witness :
    processWithEntities c2_env c2_now 1000 c2_ent =
      HandlerResponse.schedule (stubObjects 1000 c2_ent) ∧
    (processWithEntities c2_env c2_now 1000 c2_ent).isMessage = false :=
  C2_stub_schedule c2_env c2_now 1000 c2_ent (by decide) (fun _ _ _ => rfl)

/-! ### RateLimiter (api_client.py 36-79)

Wall-clock instants and token counts are modelled as rationals.  `acquire`
is a state transition taking the current `time.time()` instant; the whole
refill-and-consume sequence (including the deficit sleep) runs inside
`with self.lock:` in the source, which is what justifies treating it as one
atomic transition on the limiter state. -/

/-- Token-bucket state: capacity `max_rps`, current `tokens`, the
`last_check` instant. -/
structure RateLimiter where
  max_rps : ℚ
  tokens : ℚ
  last_check : ℚ
deriving DecidableEq, Repr

/-- `RateLimiter(max_rps)`: the bucket starts full. -/
def RateLimiter.init (max_rps : ℚ) (now : ℚ) : RateLimiter :=
  { max_rps := max_rps, tokens := max_rps, last_check := now }

/-- The refilled token count computed by `acquire`:
`min(max_rps, tokens + time_passed * max_rps)`. -/
def RateLimiter.refilled (rl : RateLimiter) (now : ℚ) : ℚ :=
  min rl.max_rps (rl.tokens + (now - rl.last_check) * rl.max_rps)

/-- `RateLimiter.acquire` (api_client.py 54-79): refill, then either consume
one token and wait 0, or sleep the deficit `(1 - tokens) / max_rps`, zero
the bucket and report that wait. -/
def RateLimiter.acquire (rl : RateLimiter) (now : ℚ) : RateLimiter × ℚ :=
  let tokens := rl.refilled now
  if tokens < 1 then
    ({ rl with tokens := 0, last_check := now }, (1 - tokens) / rl.max_rps)
  else
    ({ rl with tokens := tokens - 1, last_check := now }, 0)

/-- Claim C9: `acquire` first refills by elapsed time times `max_rps`,
capped at `max_rps`; with at least one refilled token it consumes exactly
one and returns wait 0, otherwise it reports a wait of exactly
`(1 - tokens) / max_rps` and leaves the bucket empty.  (The sequence runs
under the limiter lock in the source; the atomic state transition here is
that critical section.) -/
theorem C9_rate_limiter (rl : RateLimiter) (now : ℚ) (hpos : 0 < rl.max_rps) :
    rl.refilled now ≤ rl.max_rps ∧
    (1 ≤ rl.refilled now →
      rl.acquire now =
        ({ rl with tokens := rl.refilled now - 1, last_check := now }, 0)) ∧
    (rl.refilled now < 1 →
      rl.acquire now =
        ({ rl with tokens := 0, last_check := now },
          (1 - rl.refilled now) / rl.max_rps)) := by
  refine ⟨min_le_left _ _, ?_, ?_⟩
  · intro h
    unfold RateLimiter.acquire
    rw [if_neg (by linarith)]
  · intro h
    unfold RateLimiter.acquire
    rw [if_pos h]

/-- A concrete limiter state just refilled past one token. -/
def c9_rl : RateLimiter := { max_rps := 2, tokens := (1 : ℚ) / 2, last_check := 10 }

/-- Witness for C9: at capacity 2 with half a token left and half a second
elapsed, the bucket refills to 3/2, consumes one token and waits 0. -/
theorem C9_rate_limiter_witness :
    c9_rl.acquire (21 / 2) =
      ({ c9_rl with tokens := c9_rl.refilled (21 / 2) - 1, last_check := 21 / 2 }, 0) :=
  (C9_rate_limiter c9_rl (21 / 2) (by unfold c9_rl; norm_num)).2.1 (by
    unfold RateLimiter.refilled c9_rl
    norm_num)

/-! ### Entity extractor, fallback date path (extractor.py 134-187)

The pattern `(\d{1,2}[-./]\d{1,2}[-./]\d{2,4})` is embedded as a dedicated
backtracking matcher: each bounded repetition tries its longest width first
and falls back, exactly as the regex engine does; `re.search` scans
positions left to right.  `\d` is taken as the ASCII digits (the inputs of
interest contain no other Unicode digits). -/

/-- ASCII digit test for `\d`. -/
def isDig (c : Char) : Bool := '0' ≤ c && c ≤ '9'

/-- The separator class `[-./]`. -/
def isSepChar (c : Char) : Bool := c == '.' || c == '/' || c == '-'

/-- Consume exactly `n` digits, returning them and the rest. -/
def takeDigitsExact : Nat → List Char → Option (List Char × List Char)
  | 0, cs => some ([], cs)
  | n + 1, c :: cs =>
    if isDig c then (takeDigitsExact n cs).map (fun dr => (c :: dr.1, dr.2))
    else none
  | _ + 1, [] => none

/-- `\d{1,2}` (greedy): try two digits, then one, each with the whole
continuation. -/
def matchDig12 (cs : List Char) (k : List Char → List Char → Option (List Char)) :
    Option (List Char) :=
  ((takeDigitsExact 2 cs).bind fun dr => k dr.1 dr.2) <|>
  ((takeDigitsExact 1 cs).bind fun dr => k dr.1 dr.2)

/-- `\d{2,4}` (greedy): try four digits, then three, then two. -/
def matchDig24 (cs : List Char) (k : List Char → Option (List Char)) :
    Option (List Char) :=
  ((takeDigitsExact 4 cs).bind fun dr => k dr.1) <|>
  ((takeDigitsExact 3 cs).bind fun dr => k dr.1) <|>
  ((takeDigitsExact 2 cs).bind fun dr => k dr.1)

/-- One separator character. -/
def matchSepThen (cs : List Char) (k : Char → List Char → Option (List Char)) :
    Option (List Char) :=
  match cs with
  | c :: rest => if isSepChar c then k c rest else none
  | [] => none

/-- The whole date pattern anchored at the current position; returns the
text of capture group 1. -/
def matchDateAt (cs : List Char) : Option (List Char) :=
  matchDig12 cs fun d1 r1 =>
    matchSepThen r1 fun s1 r2 =>
      matchDig12 r2 fun d2 r3 =>
        matchSepThen r3 fun s2 r4 =>
          matchDig24 r4 fun d3 =>
            some (d1 ++ s1 :: (d2 ++ s2 :: d3))

/-- `re.search`: the leftmost position with a match wins. -/
def searchDate : List Char → Option (List Char)
  | [] => none
  | c :: rest => matchDateAt (c :: rest) <|> searchDate rest

/-- Python `s.split(sep)` for a one-character separator. -/
def splitOnChar (sep : Char) : List Char → List (List Char)
  | [] => [[]]
  | c :: rest =>
    let r := splitOnChar sep rest
    if c == sep then [] :: r
    else
      match r with
      | h :: t => (c :: h) :: t
      | [] => [[c]]

/-- The separator dispatch of the parse block (extractor.py 165-170):
split on `/` when present, else on `-` when present, else on `.`. -/
def splitDateParts (cs : List Char) : List (List Char) :=
  if cs.any (· == '/') then splitOnChar '/' cs
  else if cs.any (· == '-') then splitOnChar '-' cs
  else splitOnChar '.' cs

/-- Python `int(s)` on the split parts: the parts contain no sign or
whitespace, so it succeeds exactly on a non-empty run of digits
(`ValueError` otherwise, e.g. when a part still holds the other
separator). -/
def chToNat? (cs : List Char) : Option Nat :=
  if cs ≠ [] ∧ cs.all isDig then
    some (cs.foldl (fun a c => a * 10 + (c.toNat - 48)) 0)
  else none

/-- The parse of a matched date string up to validation: exactly three
parts (`day, month, year = ...` raises `ValueError` otherwise, caught as
not-found), the year-first swap when the first part has four characters,
the `20` prefix for two-character years, and the three `int()` conversions.
Returns day, month, year as numbers plus the expanded year string used for
the output. -/
def parseParts (ds : String) : Option (Nat × Nat × Nat × String) :=
  match splitDateParts ds.toList with
  | [day0, month0, year0] =>
    let ymd := if day0.length == 4 then (day0, month0, year0) else (year0, month0, day0)
    let year2 := if ymd.1.length == 2 then '2' :: '0' :: ymd.1 else ymd.1
    match chToNat? ymd.2.2, chToNat? ymd.2.1, chToNat? year2 with
    | some d, some m, some y => some (d, m, y, String.mk year2)
    | _, _, _ => none
  | _ => none

/-- The parse-and-validate block of `_extract_date` (extractor.py 163-187):
any parse failure and any out-of-range component yields the empty string
(the `except` arm and the validation both return `""`); otherwise the
zero-padded `dd.mm.` with the expanded year string. -/
def parseDateStr (ds : String) : String :=
  match parseParts ds with
  | some (d, m, _y, year2) =>
    if 1 ≤ d ∧ d ≤ 31 ∧ 1 ≤ m ∧ m ≤ 12 ∧ 2000 ≤ _y ∧ _y ≤ 2100 then
      pad2 d ++ "." ++ pad2 m ++ "." ++ year2
    else ""
  | none => ""

/-- Python `str.lower` restricted to the alphabets the keyword checks use:
ASCII and the Cyrillic block А-Я plus Ё. -/
def pyLowerChar (c : Char) : Char :=
  if 'A' ≤ c && c ≤ 'Z' then Char.ofNat (c.toNat + 32)
  else if 'А' ≤ c && c ≤ 'Я' then Char.ofNat (c.toNat + 32)
  else if c == 'Ё' then 'ё'
  else c

/-- Lowercase a whole string. -/
def pyLower (s : String) : String := String.mk (s.toList.map pyLowerChar)

/-- Is `pre` a leading run of `l`? -/
def leadsList : List Char → List Char → Bool
  | [], _ => true
  | _ :: _, [] => false
  | a :: as_, b :: bs => a == b && leadsList as_ bs

/-- Python `needle in hay` on strings (as char lists). -/
def containsSub (hay needle : List Char) : Bool :=
  leadsList needle hay ||
    (match hay with
     | [] => false
     | _ :: rest => containsSub rest needle)

/-- `EntityExtractor._extract_date` (extractor.py 134-187).  When no numeric
date matches, the source eagerly builds the `date_words` dict whose values
call `datetime.now().replace(day=now.day + 1)` and `(day=now.day + 2)` —
`replace` raises `ValueError` when the bumped day exceeds the month length,
and nothing catches it there, so the model returns `Except.error`.  The dict
is probed in insertion order, so a message containing the
day-after-tomorrow word is caught by the tomorrow word first (substring). -/
def extract_date (now : PyDate) (message : String) : Except Unit String :=
  match searchDate message.toList with
  | some ds => Except.ok (parseDateStr (String.mk ds))
  | none =>
    match now.replaceDay (now.day + 1), now.replaceDay (now.day + 2) with
    | some tomorrow, some dayAfter =>
      let low := (pyLower message).toList
      Except.ok
        (if containsSub low "сегодня".toList then now.fmtDots
         else if containsSub low "завтра".toList then tomorrow.fmtDots
         else if containsSub low "послезавтра".toList then dayAfter.fmtDots
         else "")
    | _, _ => Except.error ()

/-- Claim C6: the fallback date extraction normalizes `"1-5-25"` to
`"01.05.2025"` and rejects `"32.13.2025"` as not-found; in general, whatever
date string the pattern search finds, an out-of-range day, month or year
yields the empty string, and an in-range parse yields the zero-padded
day and month with the (possibly `20`-expanded) year, dot-separated. -/
theorem C6_date_fallback (now : PyDate) :
    extract_date now "1-5-25" = Except.ok "01.05.2025" ∧
    extract_date now "32.13.2025" = Except.ok "" ∧
    (∀ (msg : String) (ds : List Char) (d m y : Nat) (year2 : String),
      searchDate msg.toList = some ds →
      parseParts (String.mk ds) = some (d, m, y, year2) →
      ¬ (1 ≤ d ∧ d ≤ 31 ∧ 1 ≤ m ∧ m ≤ 12 ∧ 2000 ≤ y ∧ y ≤ 2100) →
      extract_date now msg = Except.ok "") ∧
    (∀ (msg : String) (ds : List Char) (d m y : Nat) (year2 : String),
      searchDate msg.toList = some ds →
      parseParts (String.mk ds) = some (d, m, y, year2) →
      (1 ≤ d ∧ d ≤ 31 ∧ 1 ≤ m ∧ m ≤ 12 ∧ 2000 ≤ y ∧ y ≤ 2100) →
      extract_date now msg = Except.ok (pad2 d ++ "." ++ pad2 m ++ "." ++ year2)) := by
  refine ⟨rfl, rfl, ?_, ?_⟩
  · intro msg ds d m y year2 hsearch hparse hbad
    unfold extract_date
    rw [hsearch]
    dsimp only
    unfold parseDateStr
    rw [hparse]
    dsimp only
    rw [if_neg hbad]
  · intro msg ds d m y year2 hsearch hparse hgood
    unfold extract_date
    rw [hsearch]
    dsimp only
    unfold parseDateStr
    rw [hparse]
    dsimp only
    rw [if_pos hgood]

/-- Witness for C6: the in-range clause applied to `"7/8/2034"`. -/
theorem C6_date_fallback_witness :
    extract_date { year := 2025, month := 5, day := 10 } "7/8/2034" =
      Except.ok (pad2 7 ++ "." ++ pad2 8 ++ "." ++ "2034") :=
  (C6_date_fallback { year := 2025, month := 5, day := 10 }).2.2.2
    "7/8/2034" "7/8/2034".toList 7 8 2034 "2034" rfl rfl (by norm_num)

/-- Claim C10: the fallback date extraction is *not* total.  On a message
with no numeric date the source eagerly computes
`datetime.now().replace(day=now.day + 1)` and `(day=now.day + 2)` while
building the `date_words` dict; on the last day of a month (and on the
second-to-last, for the `+ 2` entry) `replace` raises `ValueError`, which
nothing catches, although the function is documented to return a date
string or the empty string.  On an ordinary mid-month day the same call
returns a string as the claim describes. -/
theorem C10_month_end_error :
    extract_date { year := 2025, month := 1, day := 31 } "привет" = Except.error () ∧
    extract_date { year := 2025, month := 1, day := 30 } "привет" = Except.error () ∧
    extract_date { year := 2025, month := 1, day := 15 } "привет" = Except.ok "" := by
  refine ⟨rfl, rfl, rfl⟩

/-! ### Entity extractor, city and transport fallback (extractor.py 76-132, 189-253)

The three keyword-anchored patterns, the `из X в Y` pattern and the plain
capitalized-word pattern are embedded as dedicated matchers with the same
backtracking and scanning behaviour as the regex engine: literal keywords
match case-insensitively (`re.IGNORECASE`), `\s+` is greedy, the capture
group `[А-Я][а-яА-ЯёЁ-]+` is greedy, and `finditer` resumes scanning at the
end of each match.  Under `IGNORECASE` the class `[А-Я]` also admits the
lowercase block `[а-я]` (but not `ё`). -/

/-- Python `\s` whitespace (the ASCII part, which is all the inputs use). -/
def isWsChar (c : Char) : Bool :=
  c == ' ' || c == '\t' || c == '\n' || c == '\r' || c == '\x0b' || c == '\x0c'

/-- `[А-Я]` — the uppercase Cyrillic block. -/
def isUpperCyr (c : Char) : Bool := 'А' ≤ c && c ≤ 'Я'

/-- `[А-Я]` under `re.IGNORECASE`: a character matches when it or its case
pair lies in the class. -/
def isUpperCyrCI (c : Char) : Bool :=
  ('А' ≤ c && c ≤ 'Я') || ('а' ≤ c && c ≤ 'я')

/-- The tail class `[а-яА-ЯёЁ-]` (already closed under case). -/
def isCityBodyChar (c : Char) : Bool :=
  ('а' ≤ c && c ≤ 'я') || ('А' ≤ c && c ≤ 'Я') || c == 'ё' || c == 'Ё' || c == '-'

/-- Case-insensitive literal keyword match; returns the rest on success. -/
def dropKwCI : List Char → List Char → Option (List Char)
  | [], cs => some cs
  | _ :: _, [] => none
  | k :: ks, c :: cs =>
    if pyLowerChar k == pyLowerChar c then dropKwCI ks cs else none

/-- `\s+` (greedy): at least one whitespace character, then all of them. -/
def takeWsPlus (cs : List Char) : Option (List Char) :=
  match cs with
  | c :: rest => if isWsChar c then some (rest.dropWhile isWsChar) else none
  | [] => none

/-- The capture group `([А-Я][а-яА-ЯёЁ-]+)` (greedy; no backtracking is
needed since every adjacent pattern piece uses a class disjoint from the
tail class).  `ci` selects the `IGNORECASE` reading of the head class. -/
def matchCityGroup (ci : Bool) (cs : List Char) : Option (List Char × List Char) :=
  match cs with
  | c :: rest =>
    if (if ci then isUpperCyrCI c else isUpperCyr c) then
      match rest.span isCityBodyChar with
      | (body, rest2) => if body.isEmpty then none else some (c :: body, rest2)
    else none
  | [] => none

/-- One keyword-anchored pattern `keyword\s+([А-Я][а-яА-ЯёЁ-]+)` at the
current position; yields the captured city and the rest of the text after
the match. -/
def matchKwCityAt (kw : List Char) (cs : List Char) : Option (List Char × List Char) :=
  (dropKwCI kw cs).bind fun r1 =>
  (takeWsPlus r1).bind fun r2 =>
  matchCityGroup true r2

/-- `re.finditer` over the keyword pattern: scan left to right, resume at
the end of each match.  The fuel is the text length, which bounds the
number of scanning steps since every match consumes at least one
character. -/
def finditerKwCity (kw : List Char) : Nat → List Char → List (List Char)
  | 0, _ => []
  | _ + 1, [] => []
  | fuel + 1, c :: rest =>
    match matchKwCityAt kw (c :: rest) with
    | some (city, after) => city :: finditerKwCity kw fuel after
    | none => finditerKwCity kw fuel rest

/-- The `из\s+([А-Я][а-яА-ЯёЁ-]+)\s+в\s+([А-Я][а-яА-ЯёЁ-]+)` pattern at the
current position (extractor.py 230). -/
def matchIzVAt (cs : List Char) : Option (List Char × List Char) :=
  (dropKwCI "из".toList cs).bind fun r1 =>
  (takeWsPlus r1).bind fun r2 =>
  (matchCityGroup true r2).bind fun cr1 =>
  (takeWsPlus cr1.2).bind fun r4 =>
  (dropKwCI "в".toList r4).bind fun r5 =>
  (takeWsPlus r5).bind fun r6 =>
  (matchCityGroup true r6).map fun cr2 => (cr1.1, cr2.1)

/-- `re.search` of the `из X в Y` pattern. -/
def searchIzV : List Char → Option (List Char × List Char)
  | [] => none
  | c :: rest => matchIzVAt (c :: rest) <|> searchIzV rest

/-- The trailing delimiter class `(?:$|\s|,|\.|!|\?)` (one consumed
character, or end of text). -/
def isDelimChar (c : Char) : Bool :=
  isWsChar c || c == ',' || c == '.' || c == '!' || c == '?'

/-- The pattern `(?:^|\s)([А-Я][а-яА-ЯёЁ-]+)(?:$|\s|,|\.|!|\?)` at the
current position (extractor.py 213; compiled without `IGNORECASE`).  The
`^` alternative applies only at the very start of the text; the `\s`
alternative and the trailing delimiter consume their character, so a word
directly after a consumed delimiter is skipped — exactly as `finditer`
behaves on the source pattern. -/
def matchPlainCityAt (atStart : Bool) (cs : List Char) : Option (List Char × List Char) :=
  let core : List Char → Option (List Char × List Char) := fun cs1 =>
    (matchCityGroup false cs1).bind fun cr =>
      match cr.2 with
      | [] => some (cr.1, [])
      | d :: rest2 => if isDelimChar d then some (cr.1, rest2) else none
  (if atStart then core cs else none) <|>
    (match cs with
     | c :: rest => if isWsChar c then core rest else none
     | [] => none)

/-- `re.finditer` over the plain pattern. -/
def finditerPlainCity : Nat → Bool → List Char → List (List Char)
  | 0, _, _ => []
  | _ + 1, _, [] => []
  | fuel + 1, atStart, c :: rest =>
    match matchPlainCityAt atStart (c :: rest) with
    | some (city, after) => city :: finditerPlainCity fuel false after
    | none => finditerPlainCity fuel false rest

/-- The result dict of `_extract_cities`. -/
structure CityResult where
  start_city : String
  end_city : String
  mid_city : List String
deriving DecidableEq, Repr

/-- Origin cue words (extractor.py 207). -/
def startCityKws : List String :=
  ["из", "от", "откуда", "отправление из", "выезжаю из", "старт из"]

/-- Destination cue words (extractor.py 208). -/
def endCityKws : List String :=
  ["в", "до", "куда", "прибытие в", "приезжаю в", "конечная точка", "финиш в"]

/-- Waypoint cue words (extractor.py 209). -/
def midCityKws : List String :=
  ["через", "с остановкой в", "проезжая", "заезжая в", "с заездом в"]

/-- All matches of a keyword list against the message, in keyword order
(the loop body keeps the first match for start/end and appends unseen ones
for waypoints). -/
def kwMatches (kws : List String) (msg : List Char) : List String :=
  (kws.map (fun kw => finditerKwCity kw.toList msg.length msg)).flatten.map
    (fun cs => String.mk cs)

/-- `if city not in result: result.append(city)`. -/
def addUnique (acc : List String) (c : String) : List String :=
  if c ∈ acc then acc else acc ++ [c]

/-- `EntityExtractor._extract_cities` (extractor.py 189-253): the three
keyword stages, then the `из X в Y` pattern when origin or destination is
still missing and both literal substrings occur (case-sensitively), then
the plain capitalized-word scan taking first and last as origin and
destination and the interior as extra waypoints.  `match.group(1).strip()`
is the identity here since the capture group admits no whitespace. -/
def extract_cities (message : String) : CityResult :=
  let msg := message.toList
  let start1 := (kwMatches startCityKws msg).headD ""
  let end1 := (kwMatches endCityKws msg).headD ""
  let mid1 := (kwMatches midCityKws msg).foldl addUnique []
  let se2 :=
    if (start1 == "" || end1 == "") && containsSub msg "из".toList &&
        containsSub msg "в".toList then
      match searchIzV msg with
      | some cr =>
        (if start1 == "" then String.mk cr.1 else start1,
         if end1 == "" then String.mk cr.2 else end1)
      | none => (start1, end1)
    else (start1, end1)
  if se2.1 == "" || se2.2 == "" then
    let cities := ((finditerPlainCity msg.length true msg).map
      (fun cs => String.mk cs)).foldl addUnique []
    if 2 ≤ cities.length && se2.1 == "" && se2.2 == "" then
      { start_city := cities.headD "", end_city := cities.getLastD "",
        mid_city := mid1 ++ (cities.drop 1).dropLast }
    else { start_city := se2.1, end_city := se2.2, mid_city := mid1 }
  else { start_city := se2.1, end_city := se2.2, mid_city := mid1 }

/-- The transport keyword lists (extractor.py 121-125). -/
def trainKws : List String := ["поезд", "жд", "рельсы", "вагон"]

/-- Plane keywords. -/
def planeKws : List String := ["самолет", "авиа", "полет", "аэропорт"]

/-- Bus keywords. -/
def busKws : List String := ["автобус", "автовокзал", "рейс"]

/-- `any(key in msg_lower for key in keys)`. -/
def keywordHit (message : String) (keys : List String) : Bool :=
  keys.any (fun k => containsSub (pyLower message).toList k.toList)

/-- `EntityExtractor._extract_transport` (extractor.py 109-132): copy the
current mapping and set a kind to 1 exactly when one of its keywords occurs
in the lowercased message. -/
def extract_transport (message : String) (current : TransportPref) : TransportPref :=
  { train := if keywordHit message trainKws then 1 else current.train,
    plane := if keywordHit message planeKws then 1 else current.plane,
    bus := if keywordHit message busKws then 1 else current.bus }

/-- `EntityExtractor._extract_entities_fallback` (extractor.py 76-107):
starting from `current_entities.to_dict()`, fill the date only when empty
(this is the only step that can raise, via `_extract_date`), fill origin
and destination only when empty and extracted, union the waypoints, and
run the transport keyword pass.  The dict then goes through the
`TravelEntities` constructor, which keeps exactly these values. -/
def extract_entities_fallback (now : PyDate) (message : String)
    (cur : TravelEntities) : Except Unit TravelEntities :=
  (if cur.date == "" then extract_date now message else Except.ok cur.date).bind
    fun date =>
      let cities := extract_cities message
      Except.ok
        { date := date,
          start_city :=
            if cities.start_city != "" && cur.start_city == "" then cities.start_city
            else cur.start_city,
          end_city :=
            if cities.end_city != "" && cur.end_city == "" then cities.end_city
            else cur.end_city,
          mid_city :=
            if cities.mid_city != [] then (cur.mid_city ++ cities.mid_city).dedup
            else cur.mid_city,
          prefered_transport := extract_transport message cur.prefered_transport }

/-- Claim C8: the fallback path only fills slots still empty — a non-empty
`date`, `start_city` or `end_city` is returned unchanged — and the
transport pass sets a kind to selected exactly on a keyword hit, leaves
every flag untouched when no keyword matches, and never clears a
previously selected kind. -/
theorem C8_fallback_frame (now : PyDate) (msg : String) (cur res : TravelEntities)
    (h : extract_entities_fallback now msg cur = Except.ok res) :
    (cur.date ≠ "" → res.date = cur.date) ∧
    (cur.start_city ≠ "" → res.start_city = cur.start_city) ∧
    (cur.end_city ≠ "" → res.end_city = cur.end_city) ∧
    (res.prefered_transport.train =
      if keywordHit msg trainKws then 1 else cur.prefered_transport.train) ∧
    (res.prefered_transport.plane =
      if keywordHit msg planeKws then 1 else cur.prefered_transport.plane) ∧
    (res.prefered_transport.bus =
      if keywordHit msg busKws then 1 else cur.prefered_transport.bus) ∧
    (cur.prefered_transport.train = 1 → res.prefered_transport.train = 1) ∧
    (cur.prefered_transport.plane = 1 → res.prefered_transport.plane = 1) ∧
    (cur.prefered_transport.bus = 1 → res.prefered_transport.bus = 1) := by
  have hres : ∃ date, res =
      { date := date,
        start_city :=
          if (extract_cities msg).start_city != "" && cur.start_city == "" then
            (extract_cities msg).start_city
          else cur.start_city,
        end_city :=
          if (extract_cities msg).end_city != "" && cur.end_city == "" then
            (extract_cities msg).end_city
          else cur.end_city,
        mid_city :=
          if (extract_cities msg).mid_city != [] then
            (cur.mid_city ++ (extract_cities msg).mid_city).dedup
          else cur.mid_city,
        prefered_transport := extract_transport msg cur.prefered_transport } ∧
      (cur.date ≠ "" → date = cur.date) := by
    unfold extract_entities_fallback at h
    by_cases hd : (cur.date == "") = true
    · rw [if_pos hd] at h
      cases he : extract_date now msg with
      | error e => rw [he] at h; exact absurd h (by simp [Except.bind])
      | ok d =>
        rw [he] at h
        simp only [Except.bind, Except.ok.injEq] at h
        refine ⟨d, h.symm, ?_⟩
        intro hne
        exact absurd (eq_of_beq hd) hne
    · rw [if_neg hd] at h
      simp only [Except.bind, Except.ok.injEq] at h
      exact ⟨cur.date, h.symm, fun _ => rfl⟩
  obtain ⟨date, rfl, hdate⟩ := hres
  refine ⟨hdate, ?_, ?_, ?_, ?_, ?_, ?_, ?_, ?_⟩
  · intro hne
    simp only
    rw [if_neg (by simp [hne])]
  · intro hne
    simp only
    rw [if_neg (by simp [hne])]
  · simp [extract_transport]
  · simp [extract_transport]
  · simp [extract_transport]
  · intro h1
    simp only [extract_transport]
    split <;> simp [h1]
  · intro h1
    simp only [extract_transport]
    split <;> simp [h1]
  · intro h1
    simp only [extract_transport]
    split <;> simp [h1]

/-- A state with all mandatory slots already known. -/
def c8_cur : TravelEntities :=
  { date := "01.01.2025", start_city := "Самара", end_city := "Москва",
    mid_city := [], prefered_transport := defaultPref }

/-- The fallback result on the message `"поезд"` over `c8_cur`. -/
def c8_res : TravelEntities :=
  { date := "01.01.2025", start_city := "Самара", end_city := "Москва",
    mid_city := [], prefered_transport := { train := 1, plane := 0, bus := 0 } }

/-- Witness for C8: on a message holding only a train keyword, every known
slot survives and only the train flag is set. -/
theorem C8_fallback_frame_witness :
    c8_res.date = c8_cur.date ∧ c8_res.start_city = c8_cur.start_city ∧
    c8_res.end_city = c8_cur.end_city ∧ c8_res.prefered_transport.train = 1 := by
  have h := C8_fallback_frame { year := 2025, month := 5, day := 10 } "поезд"
    c8_cur c8_res (by rfl)
  exact ⟨h.1 (by decide), h.2.1 (by decide), h.2.2.1 (by decide),
    by rw [h.2.2.2.1]; decide⟩

/-! ### EntityExtractor.extract_entities (extractor.py 33-74)

The success branch iterates the five keys of `current_entities.to_dict()`
and, when the key is present in the extracted dict, keeps the extracted
value if it is truthy or the current one is falsy, otherwise the current
value; `prefered_transport` is merged per key with the extracted dict
winning.  The outcome of `api_client.extract_entities` (a network call) is
a parameter: `ok` with the raw dict, or `error` for an `APIError`. -/

/-- The merge rule `extracted[key] if extracted[key] or not value else value`
for a string slot present in the extracted dict (`none` = key absent). -/
def mergeStr (cur : String) (raw : Option String) : String :=
  match raw with
  | none => cur
  | some v => if v != "" || cur == "" then v else cur

/-- The same rule for the waypoint list. -/
def mergeList (cur : List String) (raw : Option (List String)) : List String :=
  match raw with
  | none => cur
  | some v => if v != [] || cur == [] then v else cur

/-- `new_pref = {**value, **extracted_dict[key]}` restricted to the three
tracked kinds: the extracted dict wins on every key it carries. -/
def mergePref (cur : TransportPref) (raw : Option TransportUpdate) : TransportPref :=
  match raw with
  | none => cur
  | some u =>
    { train := u.train.getD cur.train,
      plane := u.plane.getD cur.plane,
      bus := u.bus.getD cur.bus }

/-- The entity state built by the success branch of `extract_entities`. -/
def successMerge (cur : TravelEntities) (raw : EntityUpdate) : TravelEntities :=
  { date := mergeStr cur.date raw.date,
    start_city := mergeStr cur.start_city raw.start_city,
    end_city := mergeStr cur.end_city raw.end_city,
    mid_city := mergeList cur.mid_city raw.mid_city,
    prefered_transport := mergePref cur.prefered_transport raw.prefered_transport }

/-- `EntityExtractor.extract_entities`: merge on client success, delegate
to the regex fallback on `APIError` (which the `except` arm always
catches; only the fallback itself can still raise, via the date path). -/
def extract_entities (clientResult : Except Unit EntityUpdate) (now : PyDate)
    (message : String) (cur : TravelEntities) : Except Unit TravelEntities :=
  match clientResult with
  | Except.ok raw => Except.ok (successMerge cur raw)
  | Except.error _ => extract_entities_fallback now message cur

/-- The current state of the C7 counterexample: one known waypoint. -/
def c7_cur : TravelEntities :=
  { date := "", start_city := "", end_city := "", mid_city := ["A"],
    prefered_transport := defaultPref }

/-- An extraction answer supplying a different waypoint. -/
def c7_raw : EntityUpdate :=
  { date := none, start_city := none, end_city := none, mid_city := some ["B"],
    prefered_transport := none }

/-- Claim C7, counterexample: on client success the merge *replaces* the
waypoint list with the extracted one instead of taking the deduplicated
union — the previously known waypoint `A` is lost, though the union would
keep it. -/
theorem C7_counterexample :
    extract_entities (Except.ok c7_raw) { year := 2025, month := 5, day := 10 } ""
      c7_cur = Except.ok (successMerge c7_cur c7_raw) ∧
    (successMerge c7_cur c7_raw).mid_city = ["B"] ∧
    "A" ∈ c7_cur.mid_city ∧ "A" ∉ (successMerge c7_cur c7_raw).mid_city := by
  refine ⟨rfl, rfl, by decide, by decide⟩

/-- The string merge rule never clears a non-empty current value. -/
theorem mergeStr_ne (cur : String) (raw : Option String) (h : cur ≠ "") :
    mergeStr cur raw ≠ "" := by
  unfold mergeStr
  cases raw with
  | none => exact h
  | some v =>
    dsimp only
    by_cases hv : v = ""
    · subst hv
      simp [h]
    · rw [if_pos (by simp [hv])]
      exact hv

/-- Claim C7 (amended): on client success `extract_entities` merges the
raw dict into a copy of the current entities — non-empty known fields
survive an empty or absent extracted value, a non-empty extracted value
wins, and `prefered_transport` is overwritten per present key — but
`mid_city` is *replaced* by a non-empty extracted list (kept only when the
extracted list is empty or absent), not unioned; on the extraction-service
error it returns exactly the fallback result, never surfacing the error. -/
theorem C7_merge_contract (cur : TravelEntities) (raw : EntityUpdate)
    (now : PyDate) (msg : String) :
    (extract_entities (Except.ok raw) now msg cur =
      Except.ok (successMerge cur raw)) ∧
    (cur.date ≠ "" → (successMerge cur raw).date ≠ "") ∧
    (cur.start_city ≠ "" → (successMerge cur raw).start_city ≠ "") ∧
    (cur.end_city ≠ "" → (successMerge cur raw).end_city ≠ "") ∧
    (raw.date = none → (successMerge cur raw).date = cur.date) ∧
    (raw.date = some "" → cur.date ≠ "" → (successMerge cur raw).date = cur.date) ∧
    (∀ v, raw.date = some v → v ≠ "" → (successMerge cur raw).date = v) ∧
    (∀ l, raw.mid_city = some l → l ≠ [] → (successMerge cur raw).mid_city = l) ∧
    (raw.mid_city = none → (successMerge cur raw).mid_city = cur.mid_city) ∧
    (raw.mid_city = some [] → cur.mid_city ≠ [] →
      (successMerge cur raw).mid_city = cur.mid_city) ∧
    (∀ u, raw.prefered_transport = some u →
      (successMerge cur raw).prefered_transport =
        { train := u.train.getD cur.prefered_transport.train,
          plane := u.plane.getD cur.prefered_transport.plane,
          bus := u.bus.getD cur.prefered_transport.bus }) ∧
    (extract_entities (Except.error ()) now msg cur =
      extract_entities_fallback now msg cur) := by
  refine ⟨rfl, ?_, ?_, ?_, ?_, ?_, ?_, ?_, ?_, ?_, ?_, rfl⟩
  · exact fun hne => mergeStr_ne cur.date raw.date hne
  · exact fun hne => mergeStr_ne cur.start_city raw.start_city hne
  · exact fun hne => mergeStr_ne cur.end_city raw.end_city hne
  · intro hr; simp [successMerge, mergeStr, hr]
  · intro hr hne
    simp only [successMerge, mergeStr, hr]
    rw [if_neg (by simp [hne])]
  · intro v hr hv
    simp only [successMerge, mergeStr, hr]
    rw [if_pos (by simp [hv])]
  · intro l hr hl
    simp only [successMerge, mergeList, hr]
    rw [if_pos (by simp [hl])]
  · intro hr; simp [successMerge, mergeList, hr]
  · intro hr hne
    simp only [successMerge, mergeList, hr]
    rw [if_neg (by simp [hne])]
  · intro u hr; simp [successMerge, mergePref, hr]

/-- A current state and raw answer exercising the merge contract. -/
def c7w_cur : TravelEntities :=
  { date := "01.01.2025", start_city := "Самара", end_city := "",
    mid_city := ["Тверь"], prefered_transport := defaultPref }

/-- The raw dict: empty date, new destination, per-key transport. -/
def c7w_raw : EntityUpdate :=
  { date := some "", start_city := none, end_city := some "Москва",
    mid_city := some [], prefered_transport := some { train := some 1, plane := none, bus := none } }

/-- Witness for C7: the amended contract at a concrete state and answer. -/
theorem C7_merge_contract_witness :
    (successMerge c7w_cur c7w_raw).date = c7w_cur.date ∧
    (successMerge c7w_cur c7w_raw).start_city ≠ "" ∧
    (successMerge c7w_cur c7w_raw).mid_city = c7w_cur.mid_city ∧
    (successMerge c7w_cur c7w_raw).prefered_transport =
      { train := (some (1 : Int)).getD c7w_cur.prefered_transport.train,
        plane := (Option.none).getD c7w_cur.prefered_transport.plane,
        bus := (Option.none).getD c7w_cur.prefered_transport.bus } :=
  ⟨(C7_merge_contract c7w_cur c7w_raw { year := 2025, month := 1, day := 1 } "").2.2.2.2.2.1
      rfl (by decide),
   (C7_merge_contract c7w_cur c7w_raw { year := 2025, month := 1, day := 1 } "").2.2.1
      (by decide),
   (C7_merge_contract c7w_cur c7w_raw { year := 2025, month := 1, day := 1 } "").2.2.2.2.2.2.2.2.2.1
      rfl (by decide),
   (C7_merge_contract c7w_cur c7w_raw { year := 2025, month := 1, day := 1 } "").2.2.2.2.2.2.2.2.2.2.1
      { train := some 1, plane := none, bus := none } rfl⟩
